import Mathlib

/-!
Shallow embedding of the attendance-recording and eligibility core of the
EventQRollcall repository (Express + SQLite backend in `src/backend/database.js`
and `src/backend/migrations.js`, React scanner component `QRScanner`).

Conventions of the embedding:
* SQLite rows become Lean structures; tables become lists inside `Db`.
* `uuidv4()` / `crypto.randomUUID()` id generation is modelled by the counter
  `Db.nextId`, which produces a fresh identifier at every insert.
* JavaScript truthiness that the handlers rely on is made explicit:
  a nullable integer column read as `x.maxCapacity || x.max_capacity` is truthy
  exactly when the stored value is non-NULL and non-zero (`capField`), and
  `getWorkshopById` / `getGuestById` return raw column names (`is_vip`,
  `max_capacity`) because their SQL has no aliases, so camelCase accesses on
  those rows are `undefined` (falsy) in the handlers.
* The server's database connection (opened in `database.js`) never issues
  `PRAGMA foreign_keys = ON`; only the standalone migration scripts enable it,
  each on its own separate connection.  SQLite therefore runs the server's
  statements with foreign-key enforcement off, so the `ON DELETE CASCADE`
  clauses of the `attendance` table and the plain foreign keys of `vip_access`
  are not enforced at run time: a `DELETE FROM guests/workshops` removes only
  the targeted row.  The delete handlers below model that effective behaviour.
* Percentages are computed in exact rational arithmetic (`ℚ`) in place of
  IEEE doubles; the division and multiplication involved are modelled exactly.
-/

namespace EventQR

/-- A row of the `workshops` table (a "Session" in the specification). -/
structure Workshop where
  id : Nat
  name : String
  description : String
  date : String
  location : String
  user_id : Option Nat
  is_vip : Bool
  max_capacity : Option Int
deriving Repr, DecidableEq

/-- A row of the `guests` table. -/
structure Guest where
  id : Nat
  name : String
  email : String
  qr_code : String
  user_id : Option Nat
  is_vip : Bool
deriving Repr, DecidableEq

/-- A row of the `attendance` table. -/
structure AttendanceRow where
  id : Nat
  workshop_id : Nat
  guest_id : Nat
  timestamp : String
  created_by : Option Nat
deriving Repr, DecidableEq

/-- A row of the `vip_access` table. -/
structure VipAccessRow where
  id : Nat
  guest_id : Nat
  workshop_id : Nat
deriving Repr, DecidableEq

/-- The relational store: one list per table, plus the fresh-id counter that
models `uuidv4()` generation. -/
structure Db where
  workshops : List Workshop
  guests : List Guest
  attendance : List AttendanceRow
  vip_access : List VipAccessRow
  nextId : Nat
deriving Repr, DecidableEq

/-- The empty store the server starts from (migrations drop and recreate the
`workshops`, `guests`, `attendance` and `vip_access` tables). -/
def initDb : Db := ⟨[], [], [], [], 0⟩

/-- JS truthiness of the capacity field as the handlers read it
(`workshop.maxCapacity || workshop.max_capacity`): the camelCase field is
undefined on a raw row, and a NULL or `0` value is falsy, so the handlers see
a capacity exactly when the stored value is non-NULL and non-zero. -/
def capField (w : Workshop) : Option Int :=
  match w.max_capacity with
  | some c => if c = 0 then none else some c
  | none => none

/-- workshopDb.getWorkshopById: `SELECT * FROM workshops WHERE id = ?`
(`AND user_id = ?` when a non-null userId scope is passed). -/
def getWorkshopById (s : Db) (id : Nat) (scope : Option Nat) : Option Workshop :=
  s.workshops.find? fun w =>
    w.id == id && (match scope with
                   | none => true
                   | some u => w.user_id == some u)

/-- guestDb.getGuestById: `SELECT * FROM guests WHERE id = ?`
(`AND user_id = ?` when a non-null userId scope is passed). -/
def getGuestById (s : Db) (id : Nat) (scope : Option Nat) : Option Guest :=
  s.guests.find? fun g =>
    g.id == id && (match scope with
                   | none => true
                   | some u => g.user_id == some u)

/-- guestDb.getGuestByQRCode: `SELECT * FROM guests WHERE qr_code = ?`
(`AND user_id = ?` when a non-null userId scope is passed). -/
def getGuestByQRCode (s : Db) (qr : String) (scope : Option Nat) : Option Guest :=
  s.guests.find? fun g =>
    g.qr_code == qr && (match scope with
                        | none => true
                        | some u => g.user_id == some u)

/-- attendanceDb.getAttendanceRecord:
`SELECT * FROM attendance WHERE guest_id = ? AND workshop_id = ?`. -/
def getAttendanceRecord (s : Db) (gid wid : Nat) : Option AttendanceRow :=
  s.attendance.find? fun a => a.guest_id == gid && a.workshop_id == wid

/-- attendanceDb.getWorkshopAttendees:
`SELECT g.* FROM guests g JOIN attendance a ON g.id = a.guest_id WHERE
a.workshop_id = ?`.  One output row per attendance row of the workshop whose
guest still exists (guest ids are primary keys, hence unique). -/
def getWorkshopAttendees (s : Db) (wid : Nat) : List Guest :=
  (s.attendance.filter fun a => a.workshop_id == wid).filterMap
    fun a => s.guests.find? fun g => g.id == a.guest_id

/-- attendanceDb.getGuestAttendance:
`SELECT w.* FROM workshops w JOIN attendance a ON w.id = a.workshop_id WHERE
a.guest_id = ?`.  One output row per attendance row of the guest whose
workshop still exists. -/
def getGuestAttendance (s : Db) (gid : Nat) : List Workshop :=
  (s.attendance.filter fun a => a.guest_id == gid).filterMap
    fun a => s.workshops.find? fun w => w.id == a.workshop_id

/-- attendanceDb.getAllAttendance:
`SELECT a.* FROM attendance a JOIN workshops w ON a.workshop_id = w.id JOIN
guests g ON a.guest_id = g.id [WHERE w.user_id = ? OR g.user_id = ?]`.
Workshop and guest ids are primary keys, so the join keeps exactly the
attendance rows whose workshop and guest both exist. -/
def getAllAttendance (s : Db) (scope : Option Nat) : List AttendanceRow :=
  s.attendance.filter fun a =>
    match s.workshops.find? (fun w => w.id == a.workshop_id),
          s.guests.find? (fun g => g.id == a.guest_id) with
    | some w, some g =>
        (match scope with
         | none => true
         | some u => w.user_id == some u || g.user_id == some u)
    | _, _ => false

/-- Number of attendance rows of a workshop (`COUNT(*)` over the raw table,
no join). -/
def attendanceCountFor (s : Db) (wid : Nat) : Nat :=
  (s.attendance.filter fun a => a.workshop_id == wid).length

/-- attendanceDb.createAttendance: INSERT of a fresh row; the
`UNIQUE(workshop_id, guest_id)` constraint makes the insert fail when a row
for the same pair already exists, which the callback maps to the error
message below. -/
def createAttendance (s : Db) (gid wid : Nat) (timestamp : String)
    (userId : Option Nat) : Except String (AttendanceRow × Db) :=
  if s.attendance.any fun a => a.guest_id == gid && a.workshop_id == wid then
    .error "Attendance already recorded"
  else
    let row : AttendanceRow := ⟨s.nextId, wid, gid, timestamp, userId⟩
    .ok (row, { s with attendance := s.attendance ++ [row], nextId := s.nextId + 1 })

/-- getVipWorkshopCount: `SELECT COUNT(*) FROM vip_access WHERE workshop_id = ?`. -/
def getVipWorkshopCount (s : Db) (wid : Nat) : Nat :=
  (s.vip_access.filter fun v => v.workshop_id == wid).length

/-- addVipAccess: INSERT of a fresh row into `vip_access`; the
`UNIQUE(guest_id, workshop_id)` constraint makes the insert fail when a grant
for the same pair already exists, and `addVipAccess` rejects with that error. -/
def addVipAccess (s : Db) (gid wid : Nat) : Except String (VipAccessRow × Db) :=
  if s.vip_access.any fun v => v.guest_id == gid && v.workshop_id == wid then
    .error "UNIQUE constraint failed: vip_access.guest_id, vip_access.workshop_id"
  else
    let row : VipAccessRow := ⟨s.nextId, gid, wid⟩
    .ok (row, { s with vip_access := s.vip_access ++ [row], nextId := s.nextId + 1 })

/-- analyticsDb.calculateGuestAttendancePercentage, first count:
`SELECT COUNT(*) FROM workshops WHERE user_id = ?`. -/
def totalSessionsForOwner (s : Db) (userId : Nat) : Nat :=
  (s.workshops.filter fun w => w.user_id == some userId).length

/-- analyticsDb.calculateGuestAttendancePercentage, second count:
`SELECT COUNT(*) FROM attendance a JOIN workshops w ON a.workshop_id = w.id
WHERE a.guest_id = ? AND w.user_id = ?`. -/
def attendedCount (s : Db) (gid : Nat) (userId : Nat) : Nat :=
  (s.attendance.filter fun a =>
    a.guest_id == gid &&
      s.workshops.any fun w => w.id == a.workshop_id && w.user_id == some userId).length

/-- analyticsDb.calculateGuestAttendancePercentage: returns 0 when the owner
has no workshops, otherwise `attended / total * 100` (exact rational in place
of the IEEE double). -/
def calculateGuestAttendancePercentage (s : Db) (gid : Nat) (userId : Nat) : ℚ :=
  let total := totalSessionsForOwner s userId
  if total = 0 then 0
  else ((attendedCount s gid userId : ℚ) / (total : ℚ)) * 100

/-- Outcome of an HTTP handler, tagged with the response message where the
handler sends one.  Distinct error causes carry distinct messages, exactly as
in the source. -/
inductive ApiOutcome where
  | badRequest (msg : String)
  | notFound (msg : String)
  | forbidden (msg : String)
  | conflict (msg : String)
  | serverError (msg : String)
  | created
  | ok
deriving Repr, DecidableEq

/-- The VIP block of `app.post('/api/attendance')`: when the workshop row is
VIP, a guest whose `is_vip` flag is off is rejected (the handler tests
`!guest.isVip && !guest.is_vip`, i.e. only the guest's global flag — the
`vip_access` table is never consulted here); then, when the capacity field is
truthy, the attendee join-count is compared against it.  Returns the error
response produced by the block, if any. -/
def vipGate (s : Db) (wid : Nat) (guest : Guest) (workshop : Workshop) :
    Option ApiOutcome :=
  if workshop.is_vip then
    if guest.is_vip = false then
      some (.forbidden "Non-VIP guest cannot attend VIP workshops")
    else
      match capField workshop with
      | some maxCap =>
          if maxCap ≤ ((getWorkshopAttendees s wid).length : Int) then
            some (.forbidden "Workshop has reached maximum capacity")
          else none
      | none => none
  else none

/-- app.post('/api/attendance') — the check-in endpoint (`recordCheckIn`).
`scope` is `none` when the caller's role is `scanner` and `some actor` when it
is `admin`, as computed by the handler; `actor` is `req.userId`, recorded as
`created_by`; a missing body timestamp falls back to the current time. -/
def postAttendance (s : Db) (actor : Nat) (scope : Option Nat)
    (guestId workshopId : Option Nat) (timestamp : Option String) (now : String) :
    ApiOutcome × Db :=
  match guestId, workshopId with
  | some gid, some wid =>
    match getGuestById s gid scope with
    | none => (.notFound "Guest not found", s)
    | some guest =>
      match getWorkshopById s wid scope with
      | none => (.notFound "Workshop not found", s)
      | some workshop =>
        match vipGate s wid guest workshop with
        | some out => (out, s)
        | none =>
          match getAttendanceRecord s gid wid with
          | some _ => (.conflict "Attendance already recorded", s)
          | none =>
            match createAttendance s gid wid (timestamp.getD now) (some actor) with
            | .ok (_, s2) => (.created, s2)
            | .error _ => (.serverError "Failed to record attendance", s)
  | _, _ => (.badRequest "Guest ID and Workshop ID are required", s)

/-- app.post('/api/workshops') — workshop creation (admin only).  The body's
`name` is required (falsy name rejected); a VIP workshop must carry a truthy
`maxCapacity` of at most 31; the stored capacity is
`isVip ? maxCapacity : null`. -/
def createWorkshopHandler (s : Db) (actor : Nat) (name : Option String)
    (description date location : String) (isVip : Bool) (maxCapacity : Option Int) :
    ApiOutcome × Db :=
  match name with
  | none => (.badRequest "Workshop name is required", s)
  | some nm =>
    if isVip &&
        (match maxCapacity with
         | none => true
         | some c => c == 0 || 31 < c) then
      (.badRequest "VIP workshops must have a maximum capacity of 31 or less", s)
    else
      let w : Workshop :=
        { id := s.nextId, name := nm, description := description, date := date,
          location := location, user_id := some actor, is_vip := isVip,
          max_capacity := if isVip then maxCapacity else none }
      (.created, { s with workshops := s.workshops ++ [w], nextId := s.nextId + 1 })

/-- app.put('/api/workshops/:id') — workshop update (admin only).  Looks the
workshop up scoped to the caller, then `UPDATE workshops SET name = ?,
description = ?, date = ?, location = ? WHERE id = ?`: the `is_vip` and
`max_capacity` columns are not part of the statement. -/
def updateWorkshopHandler (s : Db) (actor : Nat) (wid : Nat)
    (name description date location : String) : ApiOutcome × Db :=
  match getWorkshopById s wid (some actor) with
  | none => (.notFound "Workshop not found", s)
  | some _ =>
    (.ok, { s with workshops := s.workshops.map fun w =>
      if w.id = wid then
        { w with name := name, description := description, date := date,
                 location := location }
      else w })

/-- app.delete('/api/workshops/:id') — workshop deletion (admin only).
`DELETE FROM workshops WHERE id = ?` on the server connection, which has
foreign-key enforcement off (see the file header): only workshop rows are
removed; `attendance` and `vip_access` rows are untouched. -/
def deleteWorkshopHandler (s : Db) (actor : Nat) (wid : Nat) : ApiOutcome × Db :=
  match getWorkshopById s wid (some actor) with
  | none => (.notFound "Workshop not found", s)
  | some _ => (.ok, { s with workshops := s.workshops.filter fun w => w.id != wid })

/-- app.post('/api/guests') — guest creation (admin only).  A fresh id is
generated, the QR token is `"guest-" + id`, and the `UNIQUE` email column
makes the insert fail on a duplicate email. -/
def createGuestHandler (s : Db) (actor : Nat) (name : Option String)
    (email : String) (isVip : Bool) : ApiOutcome × Db :=
  match name with
  | none => (.badRequest "Guest name is required", s)
  | some nm =>
    if s.guests.any fun g => g.email == email then
      (.serverError "Failed to create guest", s)
    else
      let g : Guest :=
        { id := s.nextId, name := nm, email := email,
          qr_code := "guest-" ++ toString s.nextId, user_id := some actor,
          is_vip := isVip }
      (.created, { s with guests := s.guests ++ [g], nextId := s.nextId + 1 })

/-- app.put('/api/guests/:id') — guest update (admin only).  `UPDATE guests
SET name = ?, email = ?, is_vip = ? WHERE id = ?`; a duplicate email violates
the `UNIQUE` column and fails the update. -/
def updateGuestHandler (s : Db) (actor : Nat) (gid : Nat)
    (name email : String) (isVip : Bool) : ApiOutcome × Db :=
  match getGuestById s gid (some actor) with
  | none => (.notFound "Guest not found", s)
  | some _ =>
    if s.guests.any fun g => g.email == email && g.id != gid then
      (.serverError "Failed to update guest", s)
    else
      (.ok, { s with guests := s.guests.map fun g =>
        if g.id = gid then { g with name := name, email := email, is_vip := isVip }
        else g })

/-- app.delete('/api/guests/:id') — guest deletion (admin only).
`DELETE FROM guests WHERE id = ?` on the server connection, which has
foreign-key enforcement off (see the file header): only the guest row is
removed; the guest's `attendance` and `vip_access` rows are untouched. -/
def deleteGuestHandler (s : Db) (actor : Nat) (gid : Nat) : ApiOutcome × Db :=
  match getGuestById s gid (some actor) with
  | none => (.notFound "Guest not found", s)
  | some _ => (.ok, { s with guests := s.guests.filter fun g => g.id != gid })

/-- app.delete('/api/attendance/:id') — explicit removal of an attendance
record by id (admin or scanner). -/
def deleteAttendanceHandler (s : Db) (rid : Nat) : ApiOutcome × Db :=
  match s.attendance.find? fun a => a.id == rid with
  | none => (.notFound "Attendance record not found", s)
  | some _ => (.ok, { s with attendance := s.attendance.filter fun a => a.id != rid })

/-- app.post('/api/workshops/:workshopId/vip-access') — VIP grant (admin
only).  The handler requires both ids, a workshop of the caller that is VIP,
then compares the current grant count against
`workshop.max_capacity || workshop.maxCapacity` (a NULL or 0 capacity makes
that expression `undefined` and the JS comparison false), then requires the
guest, then inserts; a duplicate grant violates
`UNIQUE(guest_id, workshop_id)` and surfaces as a 500 response. -/
def grantVipAccess (s : Db) (actor : Nat) (workshopId guestId : Option Nat) :
    ApiOutcome × Db :=
  match workshopId, guestId with
  | some wid, some gid =>
    match getWorkshopById s wid (some actor) with
    | none => (.notFound "Workshop not found", s)
    | some w =>
      if w.is_vip = false then (.badRequest "This is not a VIP workshop", s)
      else
        if (match capField w with
            | some c => decide (c ≤ (getVipWorkshopCount s wid : Int))
            | none => false) then
          (.badRequest "VIP workshop has reached maximum capacity", s)
        else
          match getGuestById s gid (some actor) with
          | none => (.notFound "Guest not found", s)
          | some _ =>
            match addVipAccess s gid wid with
            | .ok (_, s2) => (.created, s2)
            | .error e => (.serverError e, s)
  | _, _ => (.badRequest "Workshop ID and Guest ID are required", s)

/-- app.delete('/api/workshops/:workshopId/vip-access/:guestId') — VIP grant
removal (admin only).  The handler tests `!workshop.isVip`, but
`getWorkshopById` selects raw columns (only `is_vip` exists on the row), so
that field is always `undefined` and, once the workshop is found, the request
is always rejected with "This is not a VIP workshop"; `removeVipAccess` is
unreachable. -/
def revokeVipHandler (s : Db) (actor : Nat) (wid : Nat) : ApiOutcome × Db :=
  match getWorkshopById s wid (some actor) with
  | none => (.notFound "Workshop not found", s)
  | some _ => (.badRequest "This is not a VIP workshop", s)

/-- app.post('/api/certificates/generate') — certificate issuance (admin
only).  Requires both body fields, a guest of the caller, a non-empty
`getGuestAttendance` list (attendance joined with any-owner workshops), and an
owner-scoped attendance percentage of at least 1; both rejections reuse the
message "Guest has not attended any workshops".  On success the handler
renders and sends the certificate image. -/
def generateCertificate (s : Db) (actor : Nat) (guestId : Option Nat)
    (guestName : Option String) : ApiOutcome :=
  match guestId, guestName with
  | some gid, some _ =>
    match getGuestById s gid (some actor) with
    | none => .notFound "Guest not found"
    | some _ =>
      if (getGuestAttendance s gid).length = 0 then
        .forbidden "Guest has not attended any workshops"
      else if calculateGuestAttendancePercentage s gid actor < 1 then
        .forbidden "Guest has not attended any workshops"
      else .ok
  | _, _ => .badRequest "Missing guest information"

/-- app.get('/api/analytics/guest/:guestId/eligible') — certificate
eligibility (admin only): `none` models the 404 when the guest is not found;
otherwise the pair `(percentage >= 70, percentage)` is returned. -/
def checkEligible (s : Db) (actor : Nat) (gid : Nat) : Option (Bool × ℚ) :=
  match getGuestById s gid (some actor) with
  | none => none
  | some _ =>
    let p := calculateGuestAttendancePercentage s gid actor
    some (decide (70 ≤ p), p)

/-- JS `decodedText.startsWith('guest-')`, rendered on the character list of
the string (the two formulations agree; the list form evaluates by kernel
reduction). -/
def hasGuestQrShape (text : String) : Bool :=
  "guest-".data.isPrefixOf text.data

/-- Outcome surfaced by the scanner component for one decoded QR string.
`success = true` holds exactly for `alreadyCheckedIn` and `checkedIn`. -/
inductive ScanOutcome where
  | invalidFormat
  | guestNotFound
  | workshopNotFound
  | alreadyCheckedIn (guestName : String)
  | checkedIn (guestName : String)
  | vipErrorMessage
  | processingError
deriving Repr, DecidableEq

/-- QRScanner.onScanSuccess — the client-side scan flow.  It rejects strings
without the `guest-` prefix, resolves the guest by QR token and the workshop
by id, fetches the normalized attendance list, and — finding an existing
record for (guest, workshop) — reports success "already checked in" WITHOUT
calling the POST endpoint; otherwise it POSTs.  The component's own VIP and
capacity branches test `workshop.isVip`, `workshop.maxCapacity` and
`record.workshop_id`, all of which are `undefined` on the fetched objects
(the workshop arrives with raw column names; the attendance list is
normalized to `guestId`/`workshopId`), so those branches never fire and are
omitted here.  A 403 from the endpoint with the VIP message is mapped to a
dedicated error message; every other failure becomes a generic error. -/
def onScanSuccess (s : Db) (actor : Nat) (scope : Option Nat) (workshopId : Nat)
    (decodedText : String) (now : String) : ScanOutcome × Db :=
  if !hasGuestQrShape decodedText then (.invalidFormat, s)
  else
    match getGuestByQRCode s decodedText scope with
    | none => (.guestNotFound, s)
    | some guest =>
      match getWorkshopById s workshopId scope with
      | none => (.workshopNotFound, s)
      | some _ =>
        match (getAllAttendance s scope).find?
            (fun r => r.guest_id == guest.id && r.workshop_id == workshopId) with
        | some _ => (.alreadyCheckedIn guest.name, s)
        | none =>
          match postAttendance s actor scope (some guest.id) (some workshopId)
              (some now) now with
          | (.created, s2) => (.checkedIn guest.name, s2)
          | (.forbidden m, s2) =>
              if m = "Non-VIP guest cannot attend VIP workshops" then
                (.vipErrorMessage, s2)
              else (.processingError, s2)
          | (_, s2) => (.processingError, s2)

/-- One mutating API request, with all of its inputs. -/
inductive Op where
  | createWorkshop (actor : Nat) (name : Option String)
      (description date location : String) (isVip : Bool) (maxCapacity : Option Int)
  | updateWorkshop (actor wid : Nat) (name description date location : String)
  | deleteWorkshop (actor wid : Nat)
  | createGuest (actor : Nat) (name : Option String) (email : String) (isVip : Bool)
  | updateGuest (actor gid : Nat) (name email : String) (isVip : Bool)
  | deleteGuest (actor gid : Nat)
  | recordAttendance (actor : Nat) (scope : Option Nat)
      (guestId workshopId : Option Nat) (timestamp : Option String) (now : String)
  | deleteAttendance (rid : Nat)
  | grantVip (actor : Nat) (workshopId guestId : Option Nat)
  | revokeVip (actor wid : Nat)

/-- The store state after serving one request. -/
def step (s : Db) : Op → Db
  | .createWorkshop a n d dt l v c => (createWorkshopHandler s a n d dt l v c).2
  | .updateWorkshop a w n d dt l => (updateWorkshopHandler s a w n d dt l).2
  | .deleteWorkshop a w => (deleteWorkshopHandler s a w).2
  | .createGuest a n e v => (createGuestHandler s a n e v).2
  | .updateGuest a g n e v => (updateGuestHandler s a g n e v).2
  | .deleteGuest a g => (deleteGuestHandler s a g).2
  | .recordAttendance a sc g w t now => (postAttendance s a sc g w t now).2
  | .deleteAttendance r => (deleteAttendanceHandler s r).2
  | .grantVip a w g => (grantVipAccess s a w g).2
  | .revokeVip a w => (revokeVipHandler s a w).2

/-- Store states the API can produce from the freshly migrated database. -/
inductive Reachable : Db → Prop where
  | init : Reachable initDb
  | step {s : Db} (op : Op) : Reachable s → Reachable (step s op)

/-- A capacity limit exists only on VIP workshops. -/
def capOnlyOnVip (s : Db) : Prop :=
  ∀ w ∈ s.workshops, w.is_vip = false → w.max_capacity = none

/-- Every attendance row references an existing guest. -/
def guestIntegrity (s : Db) : Prop :=
  ∀ a ∈ s.attendance, ∃ g ∈ s.guests, g.id = a.guest_id

/-- Sample workshop row used by the concrete test stores below. -/
def mkW (id owner : Nat) (vip : Bool) (cap : Option Int) : Workshop :=
  { id := id, name := "w", description := "", date := "d", location := "l",
    user_id := some owner, is_vip := vip, max_capacity := cap }

/-- Sample guest row used by the concrete test stores below. -/
def mkG (id owner : Nat) (vip : Bool) : Guest :=
  { id := id, name := "g", email := toString id,
    qr_code := "guest-" ++ toString id, user_id := some owner, is_vip := vip }

/-- Sample attendance row used by the concrete test stores below. -/
def mkA (id wid gid : Nat) : AttendanceRow :=
  { id := id, workshop_id := wid, guest_id := gid, timestamp := "t",
    created_by := some 1 }

/-- Store with one non-VIP workshop, one guest and an existing attendance row
for the pair. -/
def c1db : Db := ⟨[mkW 0 1 false none], [mkG 10 1 false], [mkA 90 0 10], [], 100⟩

/-- Store with one non-VIP workshop and one guest, no attendance yet. -/
def c1db0 : Db := ⟨[mkW 0 1 false none], [mkG 10 1 false], [], [], 100⟩

/-- Store with a VIP workshop of capacity 1, a guest whose global VIP flag is
off, and a VipAccess grant for exactly that (guest, workshop) pair. -/
def c2db : Db := ⟨[mkW 0 1 true (some 1)], [mkG 10 1 false], [], [⟨50, 10, 0⟩], 100⟩

/-- Store with a VIP workshop of capacity 2 and a globally VIP guest. -/
def c2db2 : Db := ⟨[mkW 0 1 true (some 2)], [mkG 10 1 true], [], [], 100⟩

/-- Store with one non-VIP workshop, one guest, one attendance row for the
pair and one VipAccess row for the pair. -/
def c3db : Db := ⟨[mkW 0 1 false none], [mkG 10 1 false], [mkA 90 0 10],
  [⟨50, 10, 0⟩], 100⟩

/-- Store with a VIP workshop of capacity 1 that is full (guest 10 checked
in), a second globally VIP guest 11, and a non-VIP guest 12. -/
def c4db : Db := ⟨[mkW 0 1 true (some 1)],
  [mkG 10 1 true, mkG 11 1 true, mkG 12 1 false], [mkA 90 0 10], [], 100⟩

/-- Store with a VIP workshop of capacity 5 and an existing VipAccess grant
for (guest 10, workshop 0). -/
def c5db : Db := ⟨[mkW 0 1 true (some 5)], [mkG 10 1 false], [], [⟨50, 10, 0⟩], 100⟩

/-- Store in which owner 1 has ten workshops and guest 100 attended exactly
seven of them: the attendance percentage is exactly the threshold 70. -/
def c6db : Db := ⟨(List.range 10).map (fun i => mkW i 1 false none),
  [mkG 100 1 false], (List.range 7).map (fun i => mkA (200 + i) i 100), [], 300⟩

/-- Store in which owner 1 has two workshops and guest 100 attended both. -/
def c7db : Db := ⟨[mkW 0 1 false none, mkW 1 1 false none], [mkG 100 1 false],
  [mkA 90 0 100, mkA 91 1 100], [], 200⟩

/-- Store in which guest 10 (owner 1) attended one workshop, but that
workshop belongs to owner 2: the guest has an attendance row, while owner 1's
scope contains no workshop at all. -/
def c8db : Db := ⟨[mkW 20 2 false none], [mkG 10 1 false], [mkA 90 20 10], [], 100⟩

/-- Store in which owner 1 has two workshops and guest 10 attended one of
them: attendance percentage 50. -/
def c8db2 : Db := ⟨[mkW 0 1 false none, mkW 1 1 false none], [mkG 10 1 false],
  [mkA 90 0 10], [], 100⟩

/-- A `filterMap` whose function succeeds on every element keeps the length. -/
theorem length_filterMap_of_isSome {α β : Type} (f : α → Option β) :
    ∀ l : List α, (∀ x ∈ l, (f x).isSome) → (l.filterMap f).length = l.length := by
  intro l h
  induction l with
  | nil => simp
  | cons x xs ih =>
    have hx := h x (by simp)
    cases hf : f x with
    | none => rw [hf] at hx; simp at hx
    | some y =>
      rw [List.filterMap_cons, hf]
      simp only [List.length_cons]
      rw [ih (fun a ha => h a (by simp [ha]))]

/-- When every attendance row's guest exists, the attendee join-count of a
workshop equals its raw attendance row count. -/
theorem attendees_length_eq {s : Db} (hI : guestIntegrity s) (wid : Nat) :
    (getWorkshopAttendees s wid).length = attendanceCountFor s wid := by
  unfold getWorkshopAttendees attendanceCountFor
  apply length_filterMap_of_isSome
  intro a ha
  obtain ⟨g, hg, hgid⟩ := hI a (List.mem_filter.mp ha).1
  rw [List.find?_isSome]
  exact ⟨g, hg, by simp [hgid]⟩

/-- The VIP block only ever produces 403 responses. -/
theorem vipGate_some {s : Db} {wid : Nat} {g : Guest} {w : Workshop}
    {o : ApiOutcome} (h : vipGate s wid g w = some o) : ∃ m, o = .forbidden m := by
  unfold vipGate at h
  split at h
  · split at h
    · exact ⟨_, (Option.some.injEq _ _ ▸ h.symm)⟩
    · split at h
      · split at h
        · exact ⟨_, (Option.some.injEq _ _ ▸ h.symm)⟩
        · exact absurd h (by simp)
      · exact absurd h (by simp)
  · exact absurd h (by simp)

/-- Case analysis on the check-in endpoint: either every gate passed and
exactly one fresh attendance row was appended, or the request failed and the
store is unchanged. -/
theorem postAttendance_cases (s : Db) (actor : Nat) (scope : Option Nat)
    (guestId workshopId : Option Nat) (ts : Option String) (now : String) :
    (∃ gid wid guest w r,
      guestId = some gid ∧ workshopId = some wid ∧
      getGuestById s gid scope = some guest ∧
      getWorkshopById s wid scope = some w ∧
      vipGate s wid guest w = none ∧
      getAttendanceRecord s gid wid = none ∧
      r.workshop_id = wid ∧ r.guest_id = gid ∧
      postAttendance s actor scope guestId workshopId ts now =
        (.created, { s with attendance := s.attendance ++ [r],
                            nextId := s.nextId + 1 })) ∨
    ((postAttendance s actor scope guestId workshopId ts now).1 ≠ .created ∧
     (postAttendance s actor scope guestId workshopId ts now).1 ≠ .ok ∧
     (postAttendance s actor scope guestId workshopId ts now).2 = s) := by
  cases guestId with
  | none => right; exact ⟨by simp [postAttendance], by simp [postAttendance], rfl⟩
  | some gid =>
    cases workshopId with
    | none => right; exact ⟨by simp [postAttendance], by simp [postAttendance], rfl⟩
    | some wid =>
      cases hg : getGuestById s gid scope with
      | none =>
        right
        exact ⟨by simp [postAttendance, hg], by simp [postAttendance, hg],
          by simp [postAttendance, hg]⟩
      | some guest =>
        cases hw : getWorkshopById s wid scope with
        | none =>
          right
          exact ⟨by simp [postAttendance, hg, hw], by simp [postAttendance, hg, hw],
            by simp [postAttendance, hg, hw]⟩
        | some w =>
          cases hv : vipGate s wid guest w with
          | some o =>
            right
            obtain ⟨m, hm⟩ := vipGate_some hv
            subst hm
            exact ⟨by simp [postAttendance, hg, hw, hv], by simp [postAttendance, hg, hw, hv],
              by simp [postAttendance, hg, hw, hv]⟩
          | none =>
            cases ha : getAttendanceRecord s gid wid with
            | some a =>
              right
              exact ⟨by simp [postAttendance, hg, hw, hv, ha],
                by simp [postAttendance, hg, hw, hv, ha],
                by simp [postAttendance, hg, hw, hv, ha]⟩
            | none =>
              left
              have hany : (s.attendance.any
                  fun a => a.guest_id == gid && a.workshop_id == wid) = false := by
                rw [List.any_eq_false]
                intro x hx
                exact List.find?_eq_none.mp ha x hx
              refine ⟨gid, wid, guest, w,
                ⟨s.nextId, wid, gid, ts.getD now, some actor⟩,
                rfl, rfl, hg, hw, hv, ha, rfl, rfl, ?_⟩
              simp [postAttendance, hg, hw, hv, ha, createAttendance, hany]

/-- C9: every call to the check-in endpoint creates at most one new
Attendance row — exactly one fresh row (appended, all other tables and rows
untouched) when the outcome is 201 Created, and the store is entirely
unchanged on every other outcome. -/
theorem c9_checkin_frame (s : Db) (actor : Nat) (scope : Option Nat)
    (guestId workshopId : Option Nat) (ts : Option String) (now : String) :
    ((postAttendance s actor scope guestId workshopId ts now).1 = .created →
      (postAttendance s actor scope guestId workshopId ts now).2.workshops = s.workshops ∧
      (postAttendance s actor scope guestId workshopId ts now).2.guests = s.guests ∧
      (postAttendance s actor scope guestId workshopId ts now).2.vip_access = s.vip_access ∧
      ∃ r, (postAttendance s actor scope guestId workshopId ts now).2.attendance =
        s.attendance ++ [r]) ∧
    ((postAttendance s actor scope guestId workshopId ts now).1 ≠ .created →
      (postAttendance s actor scope guestId workshopId ts now).2 = s) := by
  rcases postAttendance_cases s actor scope guestId workshopId ts now with
    ⟨gid, wid, guest, w, r, _, _, _, _, _, _, _, _, heq⟩ | ⟨hne, _, heq⟩
  · constructor
    · intro _
      rw [heq]
      exact ⟨rfl, rfl, rfl, r, rfl⟩
    · intro hne
      rw [heq] at hne
      simp at hne
  · exact ⟨fun hc => absurd hc hne, fun _ => heq⟩

/-- C9 witness: on a concrete store, a successful check-in appends exactly
one row and leaves the other tables unchanged. -/
theorem c9_checkin_frame_witness :
    (postAttendance c1db0 1 none (some 10) (some 0) none "t").2.workshops = c1db0.workshops ∧
    (postAttendance c1db0 1 none (some 10) (some 0) none "t").2.guests = c1db0.guests ∧
    (postAttendance c1db0 1 none (some 10) (some 0) none "t").2.vip_access = c1db0.vip_access ∧
    ∃ r, (postAttendance c1db0 1 none (some 10) (some 0) none "t").2.attendance =
      c1db0.attendance ++ [r] :=
  (c9_checkin_frame c1db0 1 none (some 10) (some 0) none "t").1 (by decide)

/-- C1 counterexample: with an existing Attendance row for (guest 10,
workshop 0), the POST /api/attendance endpoint answers 409 Conflict
"Attendance already recorded" — an error response, not a success outcome —
although it does leave the store unchanged. -/
theorem c1_counterexample :
    (postAttendance c1db 1 none (some 10) (some 0) none "t").1 =
      .conflict "Attendance already recorded" ∧
    (postAttendance c1db 1 none (some 10) (some 0) none "t").1 ≠ .created ∧
    (postAttendance c1db 1 none (some 10) (some 0) none "t").1 ≠ .ok ∧
    (postAttendance c1db 1 none (some 10) (some 0) none "t").2 = c1db :=
  ⟨rfl, by decide, by decide, rfl⟩

/-- When every gate passes and no row exists for the pair, the endpoint
creates exactly the fresh row and answers 201. -/
theorem postAttendance_success {s : Db} {actor : Nat} {scope : Option Nat}
    {gid wid : Nat} {ts : Option String} {now : String} {guest : Guest} {w : Workshop}
    (hg : getGuestById s gid scope = some guest)
    (hw : getWorkshopById s wid scope = some w)
    (hv : vipGate s wid guest w = none)
    (hnone : getAttendanceRecord s gid wid = none) :
    postAttendance s actor scope (some gid) (some wid) ts now =
      (.created, { s with
        attendance := s.attendance ++ [⟨s.nextId, wid, gid, ts.getD now, some actor⟩],
        nextId := s.nextId + 1 }) := by
  have hany : (s.attendance.any
      fun a => a.guest_id == gid && a.workshop_id == wid) = false := by
    rw [List.any_eq_false]
    intro x hx
    exact List.find?_eq_none.mp hnone x hx
  simp [postAttendance, hg, hw, hv, hnone, createAttendance, hany]

/-- When every gate passes but a row for the pair already exists, the
endpoint answers 409 and leaves the store unchanged. -/
theorem postAttendance_conflict {s : Db} {actor : Nat} {scope : Option Nat}
    {gid wid : Nat} {ts : Option String} {now : String} {guest : Guest}
    {w : Workshop} {a : AttendanceRow}
    (hg : getGuestById s gid scope = some guest)
    (hw : getWorkshopById s wid scope = some w)
    (hv : vipGate s wid guest w = none)
    (hrec : getAttendanceRecord s gid wid = some a) :
    postAttendance s actor scope (some gid) (some wid) ts now =
      (.conflict "Attendance already recorded", s) := by
  simp [postAttendance, hg, hw, hv, hrec]

/-- C1 (amended): for every (guest, session) pair with an existing
Attendance row, POST /api/attendance never returns a success outcome and
leaves the store unchanged (first conjunct).  The response is the 409
Conflict error "Attendance already recorded" exactly when the VIP gates pass
at the time of the call — in particular always on non-VIP sessions (second
conjunct), where two successive calls therefore yield 201 Created then 409
Conflict with exactly one row for the pair afterward (fourth conjunct); but
on a VIP session whose attendee count has reached its capacity, the repeat
call is instead rejected by the capacity gate, which counts the guest's own
row and precedes the duplicate check, with 403 "Workshop has reached maximum
capacity" (third conjunct).  The success-styled "already checked in" outcome
is produced by the scanner flow, which finds the existing record in the
fetched list and reports success without calling the endpoint (fifth
conjunct). -/
theorem c1_amended :
    (∀ (s : Db) (actor : Nat) (scope : Option Nat) (gid wid : Nat)
       (ts : Option String) (now : String) (a : AttendanceRow),
       getAttendanceRecord s gid wid = some a →
       (postAttendance s actor scope (some gid) (some wid) ts now).1 ≠ .created ∧
       (postAttendance s actor scope (some gid) (some wid) ts now).1 ≠ .ok ∧
       (postAttendance s actor scope (some gid) (some wid) ts now).2 = s) ∧
    (∀ (s : Db) (actor : Nat) (scope : Option Nat) (gid wid : Nat)
       (ts : Option String) (now : String) (guest : Guest) (w : Workshop)
       (a : AttendanceRow),
       getGuestById s gid scope = some guest →
       getWorkshopById s wid scope = some w →
       vipGate s wid guest w = none →
       getAttendanceRecord s gid wid = some a →
       postAttendance s actor scope (some gid) (some wid) ts now =
         (.conflict "Attendance already recorded", s)) ∧
    (∀ (s : Db) (actor : Nat) (scope : Option Nat) (gid wid : Nat)
       (ts : Option String) (now : String) (guest : Guest) (w : Workshop)
       (k : Int) (a : AttendanceRow),
       getGuestById s gid scope = some guest →
       guest.is_vip = true →
       getWorkshopById s wid scope = some w →
       w.is_vip = true →
       capField w = some k →
       k ≤ ((getWorkshopAttendees s wid).length : Int) →
       getAttendanceRecord s gid wid = some a →
       postAttendance s actor scope (some gid) (some wid) ts now =
         (.forbidden "Workshop has reached maximum capacity", s)) ∧
    (∀ (s : Db) (actor : Nat) (scope : Option Nat) (gid wid : Nat)
       (ts : Option String) (now : String) (guest : Guest) (w : Workshop),
       getGuestById s gid scope = some guest →
       getWorkshopById s wid scope = some w →
       w.is_vip = false →
       getAttendanceRecord s gid wid = none →
       ∃ s1, postAttendance s actor scope (some gid) (some wid) ts now = (.created, s1) ∧
         (postAttendance s1 actor scope (some gid) (some wid) ts now).1 =
           .conflict "Attendance already recorded" ∧
         (postAttendance s1 actor scope (some gid) (some wid) ts now).2 = s1 ∧
         (s1.attendance.filter fun a => a.guest_id == gid && a.workshop_id == wid).length = 1) ∧
    (∀ (s : Db) (actor : Nat) (scope : Option Nat) (wid : Nat) (now : String)
       (qr : String) (guest : Guest) (w : Workshop) (rec : AttendanceRow),
       hasGuestQrShape qr = true →
       getGuestByQRCode s qr scope = some guest →
       getWorkshopById s wid scope = some w →
       (getAllAttendance s scope).find?
         (fun r => r.guest_id == guest.id && r.workshop_id == wid) = some rec →
       onScanSuccess s actor scope wid qr now = (.alreadyCheckedIn guest.name, s)) := by
  refine ⟨?_, ?_, ?_, ?_, ?_⟩
  · intro s actor scope gid wid ts now a hdup
    rcases postAttendance_cases s actor scope (some gid) (some wid) ts now with
      ⟨gid', wid', guest, w, r, hg', hw', _, _, _, hnone, _, _, _⟩ | ⟨h1, h2, h3⟩
    · obtain rfl : gid = gid' := Option.some.inj hg'
      obtain rfl : wid = wid' := Option.some.inj hw'
      rw [hnone] at hdup
      simp at hdup
    · exact ⟨h1, h2, h3⟩
  · intro s actor scope gid wid ts now guest w a hg hw hv hrec
    exact @postAttendance_conflict s actor scope gid wid ts now guest w a hg hw hv hrec
  · intro s actor scope gid wid ts now guest w k a hg hgvip hw hwvip hcap hfull hrec
    have hv : vipGate s wid guest w =
        some (.forbidden "Workshop has reached maximum capacity") := by
      simp [vipGate, hwvip, hgvip, hcap, hfull]
    simp [postAttendance, hg, hw, hv]
  · intro s actor scope gid wid ts now guest w hg hw hvip hnone
    have hv : vipGate s wid guest w = none := by simp [vipGate, hvip]
    have hfirst := @postAttendance_success _ actor _ _ _ ts now _ _ hg hw hv hnone
    refine ⟨_, hfirst, ?_⟩
    have hg1 : getGuestById { s with
        attendance := s.attendance ++ [⟨s.nextId, wid, gid, ts.getD now, some actor⟩],
        nextId := s.nextId + 1 } gid scope = some guest := hg
    have hw1 : getWorkshopById { s with
        attendance := s.attendance ++ [⟨s.nextId, wid, gid, ts.getD now, some actor⟩],
        nextId := s.nextId + 1 } wid scope = some w := hw
    have hv1 : vipGate { s with
        attendance := s.attendance ++ [⟨s.nextId, wid, gid, ts.getD now, some actor⟩],
        nextId := s.nextId + 1 } wid guest w = none := by simp [vipGate, hvip]
    have hrec1 : getAttendanceRecord { s with
        attendance := s.attendance ++ [⟨s.nextId, wid, gid, ts.getD now, some actor⟩],
        nextId := s.nextId + 1 } gid wid =
        some ⟨s.nextId, wid, gid, ts.getD now, some actor⟩ := by
      show ((s.attendance ++ [_ ]).find? _) = _
      rw [List.find?_append]
      unfold getAttendanceRecord at hnone
      rw [hnone]
      simp
    have hsecond := @postAttendance_conflict _ actor _ _ _ ts now _ _ _ hg1 hw1 hv1 hrec1
    have hnil : (s.attendance.filter
        fun a => a.guest_id == gid && a.workshop_id == wid) = [] := by
      rw [List.filter_eq_nil_iff]
      intro x hx
      exact List.find?_eq_none.mp hnone x hx
    refine ⟨by rw [hsecond], by rw [hsecond], ?_⟩
    show ((s.attendance ++ [_ ]).filter _).length = 1
    rw [List.filter_append, hnil]
    simp
  · intro s actor scope wid now qr guest w rec hpre hg hw hfind
    unfold onScanSuccess
    rw [hpre]
    simp only [Bool.not_true, Bool.false_eq_true, if_false, hg, hw, hfind]

/-- C1 (amended) witness: the five conjuncts at concrete stores — on `c1db`
(existing row, non-VIP session) the repeat call never succeeds, leaves the
store unchanged and is exactly the 409 Conflict; on `c4db` (existing row,
full VIP session, VIP-flagged guest 10) the repeat call is the 403 capacity
rejection instead; on `c1db0` a fresh check-in followed by a repeat yields
Created then Conflict with one row; and on `c1db` the scanner flow reports
the duplicate as success client-side. -/
theorem c1_amended_witness :
    ((postAttendance c1db 1 none (some 10) (some 0) none "t").1 ≠ .created ∧
     (postAttendance c1db 1 none (some 10) (some 0) none "t").1 ≠ .ok ∧
     (postAttendance c1db 1 none (some 10) (some 0) none "t").2 = c1db) ∧
    postAttendance c1db 1 none (some 10) (some 0) none "t" =
      (.conflict "Attendance already recorded", c1db) ∧
    postAttendance c4db 1 none (some 10) (some 0) none "t" =
      (.forbidden "Workshop has reached maximum capacity", c4db) ∧
    (∃ s1, postAttendance c1db0 1 none (some 10) (some 0) none "t" = (.created, s1) ∧
      (postAttendance s1 1 none (some 10) (some 0) none "t").1 =
        .conflict "Attendance already recorded" ∧
      (postAttendance s1 1 none (some 10) (some 0) none "t").2 = s1 ∧
      (s1.attendance.filter fun a => a.guest_id == 10 && a.workshop_id == 0).length = 1) ∧
    onScanSuccess c1db 1 none 0 "guest-10" "t" =
      (.alreadyCheckedIn (mkG 10 1 false).name, c1db) :=
  ⟨c1_amended.1 c1db 1 none 10 0 none "t" (mkA 90 0 10) (by decide),
   c1_amended.2.1 c1db 1 none 10 0 none "t" (mkG 10 1 false) (mkW 0 1 false none)
      (mkA 90 0 10) (by decide) (by decide) (by decide) (by decide),
   c1_amended.2.2.1 c4db 1 none 10 0 none "t" (mkG 10 1 true) (mkW 0 1 true (some 1))
      1 (mkA 90 0 10) (by decide) (by decide) (by decide) (by decide) (by decide)
      (by decide) (by decide),
   c1_amended.2.2.2.1 c1db0 1 none 10 0 none "t" (mkG 10 1 false) (mkW 0 1 false none)
      (by decide) (by decide) (by decide) (by decide),
   c1_amended.2.2.2.2 c1db 1 none 0 "t" "guest-10" (mkG 10 1 false) (mkW 0 1 false none)
      (mkA 90 0 10) (by decide) (by decide) (by decide) (by decide)⟩

/-- C2 counterexample: in `c2db` guest 10 has a VipAccess grant for VIP
workshop 0 but its global `is_vip` flag is off; the claim says the grant
suffices and the check-in yields CheckedIn, yet the endpoint answers 403
"Non-VIP guest cannot attend VIP workshops" and writes nothing. -/
theorem c2_counterexample :
    (postAttendance c2db 1 none (some 10) (some 0) none "t").1 =
      .forbidden "Non-VIP guest cannot attend VIP workshops" ∧
    (postAttendance c2db 1 none (some 10) (some 0) none "t").1 ≠ .created ∧
    (postAttendance c2db 1 none (some 10) (some 0) none "t").2 = c2db ∧
    c2db.vip_access = [⟨50, 10, 0⟩] :=
  ⟨rfl, by decide, rfl, rfl⟩

/-- C2 (amended): the check-in path never consults the VipAccess table —
for a VIP session, a guest whose global `is_vip` flag is off is rejected with
VipAccessDenied whatever grants exist (first conjunct, for every store, hence
for every content of `vip_access`), and a guest whose global flag is on is
admitted whenever capacity allows and no duplicate row exists (second
conjunct): the global Guest.isVip flag, not the per-session grant, is what
admits. -/
theorem c2_amended :
    (∀ (s : Db) (actor : Nat) (scope : Option Nat) (gid wid : Nat)
       (ts : Option String) (now : String) (guest : Guest) (w : Workshop),
       getGuestById s gid scope = some guest →
       guest.is_vip = false →
       getWorkshopById s wid scope = some w →
       w.is_vip = true →
       postAttendance s actor scope (some gid) (some wid) ts now =
         (.forbidden "Non-VIP guest cannot attend VIP workshops", s)) ∧
    (∀ (s : Db) (actor : Nat) (scope : Option Nat) (gid wid : Nat)
       (ts : Option String) (now : String) (guest : Guest) (w : Workshop) (k : Int),
       getGuestById s gid scope = some guest →
       guest.is_vip = true →
       getWorkshopById s wid scope = some w →
       w.is_vip = true →
       capField w = some k →
       ((getWorkshopAttendees s wid).length : Int) < k →
       getAttendanceRecord s gid wid = none →
       (postAttendance s actor scope (some gid) (some wid) ts now).1 = .created) := by
  constructor
  · intro s actor scope gid wid ts now guest w hg hgvip hw hwvip
    have hv : vipGate s wid guest w =
        some (.forbidden "Non-VIP guest cannot attend VIP workshops") := by
      simp [vipGate, hwvip, hgvip]
    simp [postAttendance, hg, hw, hv]
  · intro s actor scope gid wid ts now guest w k hg hgvip hw hwvip hcap hlen hnone
    have hv : vipGate s wid guest w = none := by
      simp [vipGate, hwvip, hgvip, hcap, not_le.mpr hlen]
    rw [@postAttendance_success _ actor _ _ _ ts now _ _ hg hw hv hnone]

/-- C2 (amended) witness: the two halves at concrete stores — the granted
but non-VIP-flagged guest of `c2db` is denied, and the VIP-flagged guest of
`c2db2` (with no grant at all) is admitted. -/
theorem c2_amended_witness :
    postAttendance c2db 1 none (some 10) (some 0) none "t" =
      (.forbidden "Non-VIP guest cannot attend VIP workshops", c2db) ∧
    (postAttendance c2db2 1 none (some 10) (some 0) none "t").1 = .created :=
  ⟨c2_amended.1 c2db 1 none 10 0 none "t" (mkG 10 1 false) (mkW 0 1 true (some 1))
      (by decide) (by decide) (by decide) (by decide),
   c2_amended.2 c2db2 1 none 10 0 none "t" (mkG 10 1 true) (mkW 0 1 true (some 2)) 2
      (by decide) (by decide) (by decide) (by decide) (by decide) (by decide) (by decide)⟩

/-- C4 counterexample: VIP workshop 0 of `c4db` has capacity 1 and is full
(guest 10 is checked in); the further check-in of the distinct existing guest
12 does not yield CapacityExceeded as the claim states — the VIP gate fires
first and answers VipAccessDenied, because guest 12's global VIP flag is
off. -/
theorem c4_counterexample :
    attendanceCountFor c4db 0 = 1 ∧
    getGuestById c4db 12 none = some (mkG 12 1 false) ∧
    (postAttendance c4db 1 none (some 12) (some 0) none "t").1 =
      .forbidden "Non-VIP guest cannot attend VIP workshops" ∧
    (postAttendance c4db 1 none (some 12) (some 0) none "t").1 ≠
      .forbidden "Workshop has reached maximum capacity" :=
  ⟨rfl, rfl, rfl, by decide⟩

/-- C4 (amended): for a VIP session with capacity k, once the attendee count
has reached k a further check-in by a distinct guest whose global VIP flag is
on yields CapacityExceeded with the store unchanged (first conjunct; a
non-VIP-flagged guest is instead rejected earlier with VipAccessDenied), and
one check-in call preserves the bound "at most k attendance rows for the
session" in every store whose attendance rows all reference existing guests
and whose workshops with the session's id are VIP with capacity k (second
conjunct). -/
theorem c4_amended :
    (∀ (s : Db) (actor : Nat) (scope : Option Nat) (gid wid : Nat)
       (ts : Option String) (now : String) (guest : Guest) (w : Workshop) (k : Int),
       getGuestById s gid scope = some guest →
       guest.is_vip = true →
       getWorkshopById s wid scope = some w →
       w.is_vip = true →
       capField w = some k →
       k ≤ ((getWorkshopAttendees s wid).length : Int) →
       postAttendance s actor scope (some gid) (some wid) ts now =
         (.forbidden "Workshop has reached maximum capacity", s)) ∧
    (∀ (s : Db) (actor : Nat) (scope : Option Nat)
       (guestId workshopId : Option Nat) (ts : Option String) (now : String)
       (wid : Nat) (k : Int),
       guestIntegrity s →
       (∀ w ∈ s.workshops, w.id = wid → w.is_vip = true ∧ w.max_capacity = some k) →
       0 < k →
       (attendanceCountFor s wid : Int) ≤ k →
       (attendanceCountFor
         (postAttendance s actor scope guestId workshopId ts now).2 wid : Int) ≤ k) := by
  constructor
  · intro s actor scope gid wid ts now guest w k hg hgvip hw hwvip hcap hfull
    have hv : vipGate s wid guest w =
        some (.forbidden "Workshop has reached maximum capacity") := by
      simp [vipGate, hwvip, hgvip, hcap, hfull]
    simp [postAttendance, hg, hw, hv]
  · intro s actor scope guestId workshopId ts now wid k hI hws hkpos hbound
    rcases postAttendance_cases s actor scope guestId workshopId ts now with
      ⟨gid, wid', guest, w, r, _, _, _, hw, hv, _, hrwid, _, heq⟩ | ⟨_, _, heq⟩
    · rw [heq]
      by_cases hsame : wid' = wid
      · subst hsame
        have hwmem : w ∈ s.workshops := List.mem_of_find?_eq_some hw
        have hwid : w.id = wid' := by
          have := List.find?_some hw
          simp only [Bool.and_eq_true, beq_iff_eq] at this
          exact this.1
        obtain ⟨hwvip, hwcap⟩ := hws w hwmem hwid
        have hkne : k ≠ 0 := by omega
        have hcapf : capField w = some k := by
          simp [capField, hwcap, hkne]
        have hlt : ((getWorkshopAttendees s wid').length : Int) < k := by
          by_contra hge
          push_neg at hge
          have hne : vipGate s wid' guest w ≠ none := by
            unfold vipGate
            rw [hwvip, hcapf]
            by_cases hgv : guest.is_vip = false
            · simp [hgv]
            · simp [hgv, hge]
          exact hne hv
        have hcnt : (getWorkshopAttendees s wid').length = attendanceCountFor s wid' :=
          attendees_length_eq hI wid'
        show ((((s.attendance ++ [r]).filter
          fun a => a.workshop_id == wid').length : Nat) : Int) ≤ k
        rw [List.filter_append, List.length_append]
        have hr1 : ([r].filter fun a => a.workshop_id == wid').length ≤ 1 := by
          simp [List.filter]
          split <;> simp
        rw [hcnt] at hlt
        unfold attendanceCountFor at hlt
        omega
      · show ((((s.attendance ++ [r]).filter
          fun a => a.workshop_id == wid).length : Nat) : Int) ≤ k
        rw [List.filter_append, List.length_append]
        have hbne : (wid' == wid) = false := beq_eq_false_iff_ne.mpr hsame
        have hr0 : ([r].filter fun a => a.workshop_id == wid).length = 0 := by
          simp [List.filter, hrwid, hbne]
        unfold attendanceCountFor at hbound
        omega
    · rw [heq]
      exact hbound

/-- C4 (amended) witness: on `c4db` (VIP, capacity 1, already full) the
VIP-flagged distinct guest 11 receives CapacityExceeded, and a check-in call
keeps the row count of workshop 0 at most 1. -/
theorem c4_amended_witness :
    postAttendance c4db 1 none (some 11) (some 0) none "t" =
      (.forbidden "Workshop has reached maximum capacity", c4db) ∧
    (attendanceCountFor
      (postAttendance c4db 1 none (some 11) (some 0) none "t").2 0 : Int) ≤ 1 :=
  ⟨c4_amended.1 c4db 1 none 11 0 none "t" (mkG 11 1 true) (mkW 0 1 true (some 1)) 1
      (by decide) (by decide) (by decide) (by decide) (by decide) (by decide),
   c4_amended.2 c4db 1 none (some 11) (some 0) none "t" 0 1
      (by unfold guestIntegrity; decide) (by decide) (by decide) (by decide)⟩

/-- C5 counterexample: in `c5db` a VipAccess grant for (guest 10, workshop 0)
already exists; re-granting the same pair is claimed to be a no-op success,
but the endpoint answers 500 (the UNIQUE-constraint failure of the insert),
not a success — the grant set is indeed unchanged. -/
theorem c5_counterexample :
    (grantVipAccess c5db 1 (some 0) (some 10)).1 =
      .serverError "UNIQUE constraint failed: vip_access.guest_id, vip_access.workshop_id" ∧
    (grantVipAccess c5db 1 (some 0) (some 10)).1 ≠ .created ∧
    (grantVipAccess c5db 1 (some 0) (some 10)).1 ≠ .ok ∧
    (grantVipAccess c5db 1 (some 0) (some 10)).2 = c5db :=
  ⟨rfl, by decide, by decide, rfl⟩

/-- C5 (amended): re-granting an existing (guest, session) pair is not a
success — whenever a grant for the pair exists, the grant endpoint answers
some error response (it never reaches 201 Created or 200 OK: depending on the
earlier gates it is a 400, 404 or the 500 from the UNIQUE-constraint
violation) — but it is a no-op on the store: the grant set, and the whole
store, are unchanged. -/
theorem c5_amended (s : Db) (actor wid gid : Nat)
    (hdup : (s.vip_access.any fun v => v.guest_id == gid && v.workshop_id == wid) = true) :
    (grantVipAccess s actor (some wid) (some gid)).2 = s ∧
    (grantVipAccess s actor (some wid) (some gid)).1 ≠ .created ∧
    (grantVipAccess s actor (some wid) (some gid)).1 ≠ .ok := by
  have hadd : addVipAccess s gid wid =
      .error "UNIQUE constraint failed: vip_access.guest_id, vip_access.workshop_id" := by
    unfold addVipAccess
    rw [hdup]
    simp
  cases hw : getWorkshopById s wid (some actor) with
  | none => refine ⟨?_, ?_, ?_⟩ <;> simp [grantVipAccess, hw]
  | some w =>
    by_cases hv : w.is_vip = false
    · refine ⟨?_, ?_, ?_⟩ <;> simp [grantVipAccess, hw, hv]
    · cases hcf : capField w with
      | none =>
        cases hg : getGuestById s gid (some actor) with
        | none => refine ⟨?_, ?_, ?_⟩ <;> simp [grantVipAccess, hw, hv, hcf, hg]
        | some g =>
          refine ⟨?_, ?_, ?_⟩ <;> simp [grantVipAccess, hw, hv, hcf, hg, hadd]
      | some c =>
        by_cases hle : c ≤ (getVipWorkshopCount s wid : Int)
        · refine ⟨?_, ?_, ?_⟩ <;> simp [grantVipAccess, hw, hv, hcf, hle]
        · cases hg : getGuestById s gid (some actor) with
          | none => refine ⟨?_, ?_, ?_⟩ <;> simp [grantVipAccess, hw, hv, hcf, hle, hg]
          | some g =>
            refine ⟨?_, ?_, ?_⟩ <;> simp [grantVipAccess, hw, hv, hcf, hle, hg, hadd]

/-- C5 (amended) witness: the duplicate grant on `c5db` leaves the store
unchanged and does not succeed. -/
theorem c5_amended_witness :
    (grantVipAccess c5db 1 (some 0) (some 10)).2 = c5db ∧
    (grantVipAccess c5db 1 (some 0) (some 10)).1 ≠ .created ∧
    (grantVipAccess c5db 1 (some 0) (some 10)).1 ≠ .ok :=
  c5_amended c5db 1 0 10 (by decide)

/-- C6: the eligibility endpoint returns, for an existing guest, exactly the
pair of the boolean `percentage >= 70` and the percentage itself — the
comparison is inclusive, so the boundary value 70 is eligible. -/
theorem c6_eligible_iff (s : Db) (actor gid : Nat) (b : Bool) (p : ℚ)
    (h : checkEligible s actor gid = some (b, p)) :
    p = calculateGuestAttendancePercentage s gid actor ∧ (b = true ↔ 70 ≤ p) := by
  unfold checkEligible at h
  cases hg : getGuestById s gid (some actor) with
  | none => rw [hg] at h; exact absurd h (by simp)
  | some g =>
    rw [hg] at h
    simp only [Option.some.injEq, Prod.mk.injEq] at h
    obtain ⟨hb, hp⟩ := h
    subst hb
    subst hp
    exact ⟨rfl, by simp⟩

/-- Concrete evaluation: guest 100 of `c6db` attended 7 of owner 1's 10
workshops, an attendance percentage of exactly 70. -/
theorem c6db_percentage : calculateGuestAttendancePercentage c6db 100 1 = 70 := by
  have h1 : attendedCount c6db 100 1 = 7 := by decide
  have h2 : totalSessionsForOwner c6db 1 = 10 := by decide
  simp only [calculateGuestAttendancePercentage, h1, h2]
  norm_num

/-- Concrete evaluation: the eligibility endpoint marks guest 100 of `c6db`
(exactly 70 percent) eligible. -/
theorem c6db_eligible : checkEligible c6db 1 100 = some (true, 70) := by
  have hg : getGuestById c6db 100 (some 1) = some (mkG 100 1 false) := by decide
  simp only [checkEligible, hg]
  rw [c6db_percentage]
  norm_num

/-- C6 witness: in `c6db` guest 100 attended 7 of owner 1's 10 workshops —
the percentage is exactly the boundary 70 and the guest is eligible. -/
theorem c6_eligible_iff_witness :
    (70 : ℚ) = calculateGuestAttendancePercentage c6db 100 1 ∧
    (true = true ↔ (70 : ℚ) ≤ 70) :=
  c6_eligible_iff c6db 1 100 true 70 c6db_eligible

/-- C7: the guest attendance percentage is 0 when the owner scope has no
workshop (no division-by-zero failure), equals attended / total * 100
otherwise, and is exactly 100 when the guest attended every workshop in
scope. -/
theorem c7_percentage_spec (s : Db) (gid userId : Nat) :
    (totalSessionsForOwner s userId = 0 →
      calculateGuestAttendancePercentage s gid userId = 0) ∧
    (totalSessionsForOwner s userId ≠ 0 →
      calculateGuestAttendancePercentage s gid userId =
        (attendedCount s gid userId : ℚ) / (totalSessionsForOwner s userId : ℚ) * 100) ∧
    (totalSessionsForOwner s userId ≠ 0 →
      attendedCount s gid userId = totalSessionsForOwner s userId →
      calculateGuestAttendancePercentage s gid userId = 100) := by
  refine ⟨fun h0 => ?_, fun hne => ?_, fun hne hall => ?_⟩
  · unfold calculateGuestAttendancePercentage
    simp [h0]
  · unfold calculateGuestAttendancePercentage
    simp [hne]
  · unfold calculateGuestAttendancePercentage
    simp only [hne, if_false]
    rw [hall, div_self (by exact_mod_cast hne), one_mul]

/-- C7 witness: owner 1 of the empty store has no workshops (percentage 0),
and guest 100 of `c7db` attended both of owner 1's two workshops
(percentage 100). -/
theorem c7_percentage_spec_witness :
    calculateGuestAttendancePercentage initDb 5 1 = 0 ∧
    calculateGuestAttendancePercentage c7db 100 1 = 100 :=
  ⟨(c7_percentage_spec initDb 5 1).1 (by decide),
   (c7_percentage_spec c7db 100 1).2.2 (by decide) (by decide)⟩

/-- C8: the certificate endpoint is claimed to succeed exactly when the guest
has at least one Attendance row.  In `c8db` guest 10 has exactly one
attendance row — for a workshop of a different owner — yet the endpoint
answers 403 "Guest has not attended any workshops" (the `percentage < 1`
check fails although the first, row-count check passed), contradicting both
the claim and the handler's own error message.  In `c8db2` the same guest has
one row and 50 percent attendance in scope: well below the 70 threshold, the
certificate is still issued, confirming that the 70-percent check plays no
part in issuance. -/
theorem c8_certificate_gate :
    (getGuestAttendance c8db 10).length = 1 ∧
    generateCertificate c8db 1 (some 10) (some "X") =
      .forbidden "Guest has not attended any workshops" ∧
    calculateGuestAttendancePercentage c8db2 10 1 = 50 ∧
    generateCertificate c8db2 1 (some 10) (some "X") = .ok := by
  have h50 : calculateGuestAttendancePercentage c8db2 10 1 = 50 := by
    have h1 : attendedCount c8db2 10 1 = 1 := by decide
    have h2 : totalSessionsForOwner c8db2 1 = 2 := by decide
    simp only [calculateGuestAttendancePercentage, h1, h2]
    norm_num
  refine ⟨rfl, rfl, h50, ?_⟩
  have hg : getGuestById c8db2 10 (some 1) = some (mkG 10 1 false) := by decide
  have hlen : (getGuestAttendance c8db2 10).length = 1 := by decide
  simp only [generateCertificate, hg, hlen]
  rw [h50]
  norm_num

/-- C3: deleting a guest (or workshop) is claimed to remove the dependent
Attendance and VipAccess rows.  On `c3db`, deleting guest 10 removes only the
guest row: its attendance row and its VipAccess row survive and now reference
a guest absent from the store; deleting workshop 0 likewise leaves its
attendance row behind.  (The `attendance` schema declares ON DELETE CASCADE,
but the server connection never enables `PRAGMA foreign_keys`, so the cascade
never fires; `vip_access` declares no cascade at all, so with enforcement on,
the delete would instead fail outright.) -/
theorem c3_delete_leaves_orphans :
    ((deleteGuestHandler c3db 1 10).1 = .ok ∧
     (deleteGuestHandler c3db 1 10).2.guests = [] ∧
     (deleteGuestHandler c3db 1 10).2.attendance = c3db.attendance ∧
     (deleteGuestHandler c3db 1 10).2.vip_access = c3db.vip_access) ∧
    (∃ a ∈ (deleteGuestHandler c3db 1 10).2.attendance,
       ∀ g ∈ (deleteGuestHandler c3db 1 10).2.guests, g.id ≠ a.guest_id) ∧
    (∃ v ∈ (deleteGuestHandler c3db 1 10).2.vip_access,
       ∀ g ∈ (deleteGuestHandler c3db 1 10).2.guests, g.id ≠ v.guest_id) ∧
    ((deleteWorkshopHandler c3db 1 0).1 = .ok ∧
     (deleteWorkshopHandler c3db 1 0).2.workshops = [] ∧
     (deleteWorkshopHandler c3db 1 0).2.attendance = c3db.attendance) :=
  ⟨⟨rfl, rfl, rfl, rfl⟩, by decide, by decide, ⟨rfl, rfl, rfl⟩⟩

/-- A successful VipAccess insert only touches the `vip_access` table. -/
theorem addVipAccess_ok {s : Db} {gid wid : Nat} {r : VipAccessRow} {s2 : Db}
    (h : addVipAccess s gid wid = .ok (r, s2)) :
    s2.workshops = s.workshops ∧ s2.guests = s.guests ∧
    s2.attendance = s.attendance := by
  unfold addVipAccess at h
  split at h
  · exact absurd h (by simp)
  · simp only [Except.ok.injEq, Prod.mk.injEq] at h
    obtain ⟨-, hs⟩ := h
    subst hs
    exact ⟨rfl, rfl, rfl⟩

/-- Workshop rows produced by the creation endpoint: either they were already
present, or they are the new row, whose stored capacity is
`isVip ? maxCapacity : null`. -/
theorem createWorkshopHandler_mem {s : Db} {actor : Nat} {name : Option String}
    {description date location : String} {isVip : Bool} {cap : Option Int}
    {w : Workshop}
    (h : w ∈ (createWorkshopHandler s actor name description date location
      isVip cap).2.workshops) :
    w ∈ s.workshops ∨
      (w.is_vip = isVip ∧ w.max_capacity = if isVip then cap else none) := by
  unfold createWorkshopHandler at h
  repeat' split at h
  all_goals try exact Or.inl h
  all_goals
    rcases List.mem_append.mp h with h1 | h1
    · exact Or.inl h1
    · rw [List.mem_singleton] at h1
      subst h1
      exact Or.inr ⟨rfl, by simp_all⟩

/-- The update endpoint rewrites name, description, date and location only:
every resulting workshop row keeps the `is_vip` and `max_capacity` of a row
of the original store. -/
theorem updateWorkshopHandler_mem {s : Db} {actor wid : Nat}
    {name description date location : String} {w' : Workshop}
    (h : w' ∈ (updateWorkshopHandler s actor wid name description date
      location).2.workshops) :
    ∃ w ∈ s.workshops, w'.is_vip = w.is_vip ∧ w'.max_capacity = w.max_capacity := by
  unfold updateWorkshopHandler at h
  split at h
  · exact ⟨w', h, rfl, rfl⟩
  · obtain ⟨w, hw, heq⟩ := List.mem_map.mp h
    by_cases hid : w.id = wid
    · rw [if_pos hid] at heq
      subst heq
      exact ⟨w, hw, rfl, rfl⟩
    · rw [if_neg hid] at heq
      subst heq
      exact ⟨w, hw, rfl, rfl⟩

/-- Deleting a workshop only removes workshop rows. -/
theorem deleteWorkshopHandler_mem {s : Db} {actor wid : Nat} {w : Workshop}
    (h : w ∈ (deleteWorkshopHandler s actor wid).2.workshops) : w ∈ s.workshops := by
  unfold deleteWorkshopHandler at h
  split at h
  · exact h
  · exact (List.mem_filter.mp h).1

/-- Guest creation does not touch the workshops table. -/
theorem createGuestHandler_workshops (s : Db) (actor : Nat) (name : Option String)
    (email : String) (isVip : Bool) :
    (createGuestHandler s actor name email isVip).2.workshops = s.workshops := by
  unfold createGuestHandler
  split
  · rfl
  · split <;> rfl

/-- Guest update does not touch the workshops table. -/
theorem updateGuestHandler_workshops (s : Db) (actor gid : Nat)
    (name email : String) (isVip : Bool) :
    (updateGuestHandler s actor gid name email isVip).2.workshops = s.workshops := by
  unfold updateGuestHandler
  split
  · rfl
  · split <;> rfl

/-- Guest deletion does not touch the workshops table. -/
theorem deleteGuestHandler_workshops (s : Db) (actor gid : Nat) :
    (deleteGuestHandler s actor gid).2.workshops = s.workshops := by
  unfold deleteGuestHandler
  split <;> rfl

/-- Attendance-record deletion does not touch the workshops table. -/
theorem deleteAttendanceHandler_workshops (s : Db) (rid : Nat) :
    (deleteAttendanceHandler s rid).2.workshops = s.workshops := by
  unfold deleteAttendanceHandler
  split <;> rfl

/-- The check-in endpoint does not touch the workshops table. -/
theorem postAttendance_workshops (s : Db) (actor : Nat) (scope : Option Nat)
    (guestId workshopId : Option Nat) (ts : Option String) (now : String) :
    (postAttendance s actor scope guestId workshopId ts now).2.workshops =
      s.workshops := by
  rcases postAttendance_cases s actor scope guestId workshopId ts now with
    ⟨_, _, _, _, _, _, _, _, _, _, _, _, _, heq⟩ | ⟨_, _, heq⟩
  · rw [heq]
  · rw [heq]

/-- The VIP-grant endpoint does not touch the workshops table. -/
theorem grantVipAccess_workshops (s : Db) (actor : Nat)
    (workshopId guestId : Option Nat) :
    (grantVipAccess s actor workshopId guestId).2.workshops = s.workshops := by
  unfold grantVipAccess
  repeat' split
  any_goals rfl
  next _ s2 heq => exact (addVipAccess_ok heq).1

/-- The VIP-revoke endpoint does not touch the workshops table. -/
theorem revokeVipHandler_workshops (s : Db) (actor wid : Nat) :
    (revokeVipHandler s actor wid).2.workshops = s.workshops := by
  unfold revokeVipHandler
  split <;> rfl

/-- C10: workshop creation stores a capacity only on VIP workshops (the
request's maxCapacity is replaced by NULL when isVip is false); the update
endpoint never changes `is_vip` or `max_capacity`; hence in every store state
reachable through the API, a capacity limit exists only on VIP workshops — so
the capacity check of the check-in endpoint, performed only inside the VIP
branch, covers every capacity-limited session. -/
theorem c10_cap_only_on_vip :
    (∀ (s : Db) (actor : Nat) (name : Option String)
       (description date location : String) (isVip : Bool) (cap : Option Int)
       (w : Workshop),
       w ∈ (createWorkshopHandler s actor name description date location
         isVip cap).2.workshops →
       w ∈ s.workshops ∨ (w.is_vip = isVip ∧ (isVip = false → w.max_capacity = none))) ∧
    (∀ (s : Db) (actor wid : Nat) (name description date location : String)
       (w' : Workshop),
       w' ∈ (updateWorkshopHandler s actor wid name description date
         location).2.workshops →
       ∃ w ∈ s.workshops, w'.is_vip = w.is_vip ∧ w'.max_capacity = w.max_capacity) ∧
    (∀ s : Db, Reachable s → capOnlyOnVip s) := by
  refine ⟨?_, ?_, ?_⟩
  · intro s actor name d dt l isVip cap w hmem
    rcases createWorkshopHandler_mem hmem with h | ⟨hv, hc⟩
    · exact Or.inl h
    · refine Or.inr ⟨hv, fun hf => ?_⟩
      rw [hc, hf]
      simp
  · intro s actor wid n d dt l w' hmem
    exact updateWorkshopHandler_mem hmem
  · intro s hr
    induction hr with
    | init =>
      intro w hw
      simp [initDb] at hw
    | step op hs ih =>
      cases op with
      | createWorkshop a n d dt l v c =>
        intro w hw hflag
        rcases createWorkshopHandler_mem hw with h | ⟨hv, hc⟩
        · exact ih w h hflag
        · have hvf : v = false := by rw [← hv, hflag]
          rw [hc, hvf]
          simp
      | updateWorkshop a wid n d dt l =>
        intro w' hw' hflag
        obtain ⟨w, hw, hv, hc⟩ := updateWorkshopHandler_mem hw'
        rw [hc]
        exact ih w hw (hv ▸ hflag)
      | deleteWorkshop a wid =>
        intro w hw
        exact ih w (deleteWorkshopHandler_mem hw)
      | createGuest a n e v =>
        intro w hw
        rw [show (step _ (Op.createGuest a n e v)).workshops = _ from
          createGuestHandler_workshops _ a n e v] at hw
        exact ih w hw
      | updateGuest a g n e v =>
        intro w hw
        rw [show (step _ (Op.updateGuest a g n e v)).workshops = _ from
          updateGuestHandler_workshops _ a g n e v] at hw
        exact ih w hw
      | deleteGuest a g =>
        intro w hw
        rw [show (step _ (Op.deleteGuest a g)).workshops = _ from
          deleteGuestHandler_workshops _ a g] at hw
        exact ih w hw
      | recordAttendance a sc g wksp t now =>
        intro w hw
        rw [show (step _ (Op.recordAttendance a sc g wksp t now)).workshops = _ from
          postAttendance_workshops _ a sc g wksp t now] at hw
        exact ih w hw
      | deleteAttendance r =>
        intro w hw
        rw [show (step _ (Op.deleteAttendance r)).workshops = _ from
          deleteAttendanceHandler_workshops _ r] at hw
        exact ih w hw
      | grantVip a wksp g =>
        intro w hw
        rw [show (step _ (Op.grantVip a wksp g)).workshops = _ from
          grantVipAccess_workshops _ a wksp g] at hw
        exact ih w hw
      | revokeVip a wksp =>
        intro w hw
        rw [show (step _ (Op.revokeVip a wksp)).workshops = _ from
          revokeVipHandler_workshops _ a wksp] at hw
        exact ih w hw

/-- C10 witness: after creating a VIP workshop (capacity 3) and then a
non-VIP workshop whose request nonetheless carries maxCapacity 9, the
reachable store still has capacity limits on VIP workshops only; and the
non-VIP row created by the second request indeed stores no capacity. -/
theorem c10_cap_only_on_vip_witness :
    ((⟨1, "v", "x", "d", "l", some 1, false, none⟩ : Workshop) ∈
        (step initDb (Op.createWorkshop 1 (some "w") "x" "d" "l" true (some 3))).workshops ∨
      ((⟨1, "v", "x", "d", "l", some 1, false, none⟩ : Workshop).is_vip = false ∧
        (false = false →
          (⟨1, "v", "x", "d", "l", some 1, false, none⟩ : Workshop).max_capacity = none))) ∧
    capOnlyOnVip
      (step (step initDb (Op.createWorkshop 1 (some "w") "x" "d" "l" true (some 3)))
        (Op.createWorkshop 1 (some "v") "x" "d" "l" false (some 9))) :=
  ⟨c10_cap_only_on_vip.1
      (step initDb (Op.createWorkshop 1 (some "w") "x" "d" "l" true (some 3)))
      1 (some "v") "x" "d" "l" false (some 9) ⟨1, "v", "x", "d", "l", some 1, false, none⟩
      (by decide),
   c10_cap_only_on_vip.2.2 _
      (Reachable.step _ (Reachable.step _ Reachable.init))⟩

end EventQR
